import Mathlib

/-!
# LatencyClients: requestor, replier and connection options

A shallow embedding of the three Go source files of the repository
(`service-requestor.go`, `service-replier.go`, `utils/config.go`) together with
the properties of their loops, handlers and conversions.

Conventions.
* A `time.Duration` and an `int64` are an `Int` together with the range
  predicate `isInt64`; arithmetic that can leave the range is wrapped explicitly.
* A Go pointer that may be `nil` is an `Option`.
* Calls into the messaging, metrics, logging and HTTP libraries are recorded as
  events, in program order; what the environment answers (the error a request
  returns, the elapsed wall time, the result of a `Serve` call) is an input.
-/

namespace LatencyClients

/-! ## Machine integers and the float conversion -/

/-- Range of a Go `int64` (and of a `time.Duration`, which is an `int64` count of nanoseconds). -/
def isInt64 (x : Int) : Prop := -9223372036854775808 ≤ x ∧ x ≤ 9223372036854775807

instance (x : Int) : Decidable (isInt64 x) := by unfold isInt64; infer_instance

/-- Two's complement wrap-around of an integer into the `int64` range. -/
def wrapInt64 (x : Int) : Int := (x + 9223372036854775808) % 18446744073709551616 - 9223372036854775808

/-- Value of the Go conversion `float64(x)` of an integer `x`: integers of magnitude below
`2^53` are representable and converted exactly; larger ones are rounded to a 53-bit
significand, to nearest with ties to even. -/
def float64OfInt (x : Int) : ℚ :=
  let a := x.natAbs
  if a < 9007199254740992 then (x : ℚ)
  else
    let e := Nat.log2 a - 52
    let q := a / 2 ^ e
    let r := a % 2 ^ e
    let up : Bool := decide (2 ^ e < 2 * r) || (decide (2 * r = 2 ^ e) && decide (q % 2 = 1))
    let m := if up then q + 1 else q
    ((Int.sign x * ((m * 2 ^ e : Nat) : Int) : Int) : ℚ)

/-- The constant `time.Millisecond`, in nanoseconds. -/
def Millisecond : Int := 1000000

/-- The constant `time.Second`, in nanoseconds. -/
def Second : Int := 1000000000

/-- Reading of a decimal digit character onto an accumulated value: the inverse of the
printing of a natural number, one character at a time. -/
def digitValue (acc : Nat) (c : Char) : Nat := acc * 10 + (c.toNat - 48)

/-! ## `service-requestor.go` -/

namespace Requestor

/-- Function `ToMillis` of `service-requestor.go`: `0` for a nil pointer, otherwise the
nanosecond count divided by `int64(time.Millisecond)` with Go's integer division (which
truncates toward zero), converted to `float64` afterwards. -/
def ToMillis (d : Option Int) : ℚ :=
  match d with
  | none => 0
  | some n => float64OfInt (Int.tdiv n Millisecond)

/-- Error value returned by the blocking `nc.Request` call: the distinguished value
`nats.ErrConnectionClosed`, or any other error, carried with its message text. -/
inductive RequestError where
  | ErrConnectionClosed
  | other (text : String)
  deriving DecidableEq, Repr

/-- Text of an error, as printed by the `%v` verb. -/
def RequestError.Error : RequestError → String
  | .ErrConnectionClosed => "nats: connection closed"
  | .other text => text

/-- Calls made by the request loop on its collaborators, in program order. -/
inductive Event where
  | Request (subject payload : String) (timeout : Int)
  | Log (line : String)
  | SummaryObserve (service : String) (value : ℚ)
  | HistogramObserve (value : ℚ)
  | CounterInc (service : String)
  | Sleep (d : Int)
  deriving DecidableEq, Repr

/-- Function `Debugf`: prints the formatted line only when the `debug` flag is set. -/
def Debugf (debug : Bool) (line : String) : List Event :=
  if debug then [Event.Log line] else []

/-- The variables of `main` that the request loop reads. -/
structure LoopConfig where
  subject : String
  dly : Int
  debug : Bool
  deriving DecidableEq, Repr

/-- What the environment answers during one iteration: the error returned by `nc.Request`
(`none` for a nil error) and the duration `time.Now().Sub(start)` measured afterwards. -/
structure IterInput where
  err : Option RequestError
  elapsed : Int
  deriving DecidableEq, Repr

/-- Call `atomic.AddInt64(addr, delta)`: the new value, with `int64` wrap-around. -/
def AddInt64 (count delta : Int) : Int := wrapInt64 (count + delta)

/-- Payload `fmt.Sprintf("request-%d", c)`. -/
def payload (c : Int) : String := "request-" ++ toString c

/-- Result of one pass through the body of the `for true` loop. -/
structure IterResult where
  count : Int
  events : List Event
  returned : Bool
  deriving DecidableEq, Repr

/-- Body of the `for true` loop of the requestor goroutine (`main`, lines 206 to 234). -/
def loopBody (cfg : LoopConfig) (count : Int) (inp : IterInput) : IterResult :=
  let c := AddInt64 count 1
  let request := Event.Request cfg.subject (payload c) (10 * Second)
  if inp.err = some RequestError.ErrConnectionClosed then
    { count := c, events := [request], returned := true }
  else
    let trace :=
      match inp.err with
      | some e => Debugf cfg.debug ("Request error: " ++ e.Error)
      | none => []
    let millis := ToMillis (some inp.elapsed)
    let metrics :=
      [Event.SummaryObserve "rpc-demo-req" millis, Event.HistogramObserve millis,
        Event.CounterInc "rpc-demo-req"]
    let delay := if cfg.dly ≠ 0 then [Event.Sleep cfg.dly] else []
    { count := c, events := [request] ++ trace ++ metrics ++ delay, returned := false }

/-- State of the goroutine after some iterations: the counter, the events of every
iteration so far (one list per iteration, oldest first) and whether the goroutine has
returned. -/
structure LoopRun where
  count : Int
  iterations : List (List Event)
  returned : Bool
  deriving DecidableEq, Repr

/-- The `for true` loop, driven by the answers of the environment to the successive
iterations. It returns as soon as an iteration returns; when the answers supplied are used
up without that, the goroutine is still running (`returned = false`). -/
def requestLoop (cfg : LoopConfig) : List IterInput → Int → LoopRun
  | [], count => { count := count, iterations := [], returned := false }
  | inp :: rest, count =>
    let r := loopBody cfg count inp
    if r.returned then
      { count := r.count, iterations := [r.events], returned := true }
    else
      let run := requestLoop cfg rest r.count
      { count := run.count, iterations := r.events :: run.iterations, returned := run.returned }

/-- The goroutine as started by `main`: the counter starts at `int64(0)`. -/
def requestor (cfg : LoopConfig) (inputs : List IterInput) : LoopRun :=
  requestLoop cfg inputs 0

/-- Payload of the request issued in an iteration, if one was. -/
def requestPayload? (events : List Event) : Option String :=
  events.findSome? fun ev =>
    match ev with
    | Event.Request _ p _ => some p
    | _ => none

/-- Payloads of the requests issued, in order. -/
def requestPayloads (run : LoopRun) : List String :=
  run.iterations.filterMap requestPayload?

/-- Whether an event records into one of the three metrics. -/
def Event.isMetric : Event → Bool
  | .SummaryObserve _ _ => true
  | .HistogramObserve _ => true
  | .CounterInc _ => true
  | _ => false

/-- Whether an event is a `time.Sleep`. -/
def Event.isSleep : Event → Bool
  | .Sleep _ => true
  | _ => false

/-- Whether an event is a line written to the log. -/
def Event.isLog : Event → Bool
  | .Log _ => true
  | _ => false

end Requestor

/-! ## `service-replier.go` -/

namespace Replier

/-- The fields of `nats.Msg` that the handler reads. -/
structure Msg where
  Subject : String
  Reply : String
  Data : String
  deriving DecidableEq, Repr

/-- What the message handler does, in program order: its calls of `time.Sleep` and
`nc.Publish`, the lines it logs, and `Sent` for a message that a `nc.Publish` call hands to
the server. A nil payload is the empty string. -/
inductive Event where
  | Sleep (d : Int)
  | Publish (subject data : String)
  | Sent (subject data : String)
  | Log (line : String)
  deriving DecidableEq, Repr

/-- Function `Debugf` of `service-replier.go`. -/
def Debugf (debug : Bool) (line : String) : List Event :=
  if debug then [Event.Log line] else []

/-- Call `nc.Publish(subject, data)` of the messaging library: the error it returns and what
it does. An empty subject is refused with `nats: invalid subject` before anything is sent;
otherwise `conn` decides, the error with which the connection refuses a publish (closed,
draining), or `none` when it accepts, and then the message is sent. -/
def ncPublish (conn : Option String) (subject data : String) : Option String × List Event :=
  if subject = "" then (some "nats: invalid subject", [Event.Publish subject data])
  else
    match conn with
    | some err => (some err, [Event.Publish subject data])
    | none => (none, [Event.Publish subject data, Event.Sent subject data])

/-- The callback passed to `nc.QueueSubscribe` in `main` (lines 79 to 85). The error
returned by `nc.Publish` is discarded. -/
def handler (debug : Bool) (dly : Int) (conn : Option String) (msg : Msg) : List Event :=
  let delay := if dly ≠ 0 then [Event.Sleep dly] else []
  let publish := (ncPublish conn msg.Reply "").2
  delay ++ publish ++ Debugf debug ("received: " ++ msg.Data ++ "\n")

/-- Whether an event is a call of `nc.Publish`. -/
def Event.isPublish : Event → Bool
  | .Publish _ _ => true
  | _ => false

/-- Whether an event is a message sent to the server. -/
def Event.isSent : Event → Bool
  | .Sent _ _ => true
  | _ => false

/-- Whether an event is a `time.Sleep`. -/
def Event.isSleep : Event → Bool
  | .Sleep _ => true
  | _ => false

end Replier

/-! ## `utils/config.go` -/

namespace Utils

/-- Struct `Config`. -/
structure Config where
  Creds : String
  Tlscert : String
  Tlskey : String
  Tlsca : String
  deriving DecidableEq, Repr

/-- Function `NewConfig`: the zero value of the struct. -/
def NewConfig : Config := { Creds := "", Tlscert := "", Tlskey := "", Tlsca := "" }

/-- The `nats.Option` values built by `GetClientOptions`, by the library function that
builds each and its arguments. The four handler options carry the callbacks below. -/
inductive NatsOption where
  | Name (name : String)
  | UserCredentials (userOrChainedFile : String)
  | DisconnectHandler
  | ReconnectHandler
  | ClosedHandler
  | ErrorHandler
  | MaxReconnects (max : Int)
  | RootCAs (file : List String)
  | ClientCert (certFile keyFile : String)
  deriving DecidableEq, Repr

/-- Method `GetClientOptions`; `hostname` is the result of `os.Hostname()`, an error or a name. -/
def GetClientOptions (conf : Config) (hostname : Except String String) : List NatsOption := Id.run do
  let hostname :=
    match hostname with
    | .error _ => "127.0.0.1"
    | .ok name => name
  let mut opts := [NatsOption.Name ("NATS_Requestor - " ++ hostname)]
  if conf.Creds ≠ "" then
    opts := opts ++ [NatsOption.UserCredentials conf.Creds]
  opts := opts ++ [NatsOption.DisconnectHandler]
  opts := opts ++ [NatsOption.ReconnectHandler]
  opts := opts ++ [NatsOption.ClosedHandler]
  opts := opts ++ [NatsOption.ErrorHandler]
  opts := opts ++ [NatsOption.MaxReconnects 10240]
  if conf.Tlsca ≠ "" then
    opts := opts ++ [NatsOption.RootCAs [conf.Tlsca]]
  if conf.Tlscert ≠ "" then
    opts := opts ++ [NatsOption.ClientCert conf.Tlscert conf.Tlskey]
  return opts

/-- Whether an option is the credentials-authentication option. -/
def NatsOption.isUserCredentials : NatsOption → Bool
  | .UserCredentials _ => true
  | _ => false

/-- The fields of `nats.Subscription` that the callback reads. -/
structure Subscription where
  Subject : String
  deriving DecidableEq, Repr

/-- A Go run-time panic. -/
inductive Panic where
  | nilPointerDereference
  deriving DecidableEq, Repr

/-- Field selection `s.Subject` through a pointer: a run-time panic when the pointer is nil. -/
def Subscription.selectSubject (s : Option Subscription) : Except Panic String :=
  match s with
  | none => .error Panic.nilPointerDereference
  | some sub => .ok sub.Subject

/-- The callback given to `nats.ErrorHandler` (lines 57 to 63): the lines it writes to the
log, or the panic that ends it. The connection argument is not read. -/
def errorHandler (s : Option Subscription) (err : String) : Except Panic (List String) :=
  if s ≠ none then
    .ok ["Error: err=" ++ err]
  else do
    let subject ← Subscription.selectSubject s
    .ok ["Error: subject=" ++ subject ++ ", err=" ++ err]

end Utils

/-! ## Lemmas on the conversion -/

theorem tdiv_million_cases (n : Int) :
    (0 ≤ n → Int.tdiv n 1000000 = n / 1000000) ∧
      (n ≤ 0 → Int.tdiv n 1000000 = -((-n) / 1000000)) := by
  constructor
  · intro hn
    exact Int.tdiv_eq_ediv hn (by decide)
  · intro hn
    have h2 : Int.tdiv (-(-n)) 1000000 = -(Int.tdiv (-n) 1000000) := Int.neg_tdiv _ _
    rw [Int.neg_neg] at h2
    rw [h2, Int.tdiv_eq_ediv (by omega) (by decide)]

theorem tdiv_million_bounds (n : Int) (h : isInt64 n) :
    -9223372036854 ≤ Int.tdiv n 1000000 ∧ Int.tdiv n 1000000 ≤ 9223372036854 := by
  unfold isInt64 at h
  have hc := tdiv_million_cases n
  rcases Int.le_total 0 n with hn | hn
  · rw [hc.1 hn]
    omega
  · rw [hc.2 hn]
    omega

theorem float64OfInt_exact (x : Int) (h : x.natAbs < 9007199254740992) :
    float64OfInt x = (x : ℚ) := by
  unfold float64OfInt
  simp only [h, if_true]

theorem ToMillis_eq_tdiv (n : Int) (h : isInt64 n) :
    Requestor.ToMillis (some n) = ((Int.tdiv n 1000000 : Int) : ℚ) := by
  have hb := tdiv_million_bounds n h
  show float64OfInt (Int.tdiv n Millisecond) = _
  unfold Millisecond
  apply float64OfInt_exact
  omega

/-! ## `ToMillis` -/

/-- C1: for a duration of `n` nanoseconds (an `int64`), `ToMillis` returns exactly 1 when
`1000000 ≤ n ≤ 1999999`, returns exactly `k` when `n = k * 1000000` with `k ≥ 0`, and in
general returns the integer quotient of `n` by `1000000` (Go's truncating division, taken
before the conversion to a float), a value without fractional part. -/
theorem ToMillis_integer_quotient (n : Int) (h : isInt64 n) :
    (1000000 ≤ n ∧ n ≤ 1999999 → Requestor.ToMillis (some n) = 1) ∧
      (∀ k : Int, 0 ≤ k → n = k * 1000000 → Requestor.ToMillis (some n) = (k : ℚ)) ∧
      Requestor.ToMillis (some n) = ((Int.tdiv n 1000000 : Int) : ℚ) := by
  have hq := ToMillis_eq_tdiv n h
  have hc := tdiv_million_cases n
  refine ⟨?_, ?_, hq⟩
  · rintro ⟨h1, h2⟩
    have h3 : Int.tdiv n 1000000 = 1 := by
      rw [hc.1 (by omega)]
      omega
    rw [hq, h3]
    norm_num
  · intro k hk hn
    have h3 : Int.tdiv n 1000000 = k := by
      rw [hc.1 (by omega)]
      omega
    rw [hq, h3]

theorem ToMillis_integer_quotient_witness :
    isInt64 1500000 ∧ Requestor.ToMillis (some 1500000) = 1 ∧
      Requestor.ToMillis (some 1500000) = ((Int.tdiv 1500000 1000000 : Int) : ℚ) ∧
      Requestor.ToMillis (some 7000000) = ((7 : Int) : ℚ) :=
  ⟨by decide, (ToMillis_integer_quotient 1500000 (by decide)).1 ⟨by decide, by decide⟩,
    (ToMillis_integer_quotient 1500000 (by decide)).2.2,
    (ToMillis_integer_quotient 7000000 (by decide)).2.1 7 (by decide) (by decide)⟩

/-- C8, as stated, fails for a negative duration: for `n = -1` nanosecond `ToMillis` returns
`m = 0`, and `m * 1000000 = 0` is greater than `n`. -/
theorem ToMillis_negative_rounds_up :
    isInt64 (-1) ∧ Requestor.ToMillis (some (-1)) = 0 ∧
      ¬ (Requestor.ToMillis (some (-1)) * 1000000 ≤ (((-1 : Int)) : ℚ)) := by
  have h0 : Requestor.ToMillis (some (-1)) = 0 := by
    rw [ToMillis_eq_tdiv (-1) (by decide)]
    have : Int.tdiv (-1) 1000000 = 0 := by decide
    rw [this]
    norm_num
  refine ⟨by decide, h0, ?_⟩
  rw [h0]
  norm_num

/-- C8, amended: `ToMillis` truncates toward zero. For a duration of `n ≥ 0` nanoseconds the
returned value `m` satisfies `m * 1000000 ≤ n`, so the reported latency never exceeds the
elapsed time; for `n ≤ 0` it satisfies `n ≤ m * 1000000 ≤ 0`. -/
theorem ToMillis_truncates_toward_zero (n : Int) (h : isInt64 n) :
    (0 ≤ n → Requestor.ToMillis (some n) * 1000000 ≤ (n : ℚ)) ∧
      (n ≤ 0 → (n : ℚ) ≤ Requestor.ToMillis (some n) * 1000000 ∧
        Requestor.ToMillis (some n) * 1000000 ≤ 0) := by
  have hq := ToMillis_eq_tdiv n h
  have hc := tdiv_million_cases n
  rw [hq]
  constructor
  · intro hn
    have h1 : Int.tdiv n 1000000 * 1000000 ≤ n := by
      rw [hc.1 hn]
      omega
    exact_mod_cast h1
  · intro hn
    have h1 : n ≤ Int.tdiv n 1000000 * 1000000 ∧ Int.tdiv n 1000000 * 1000000 ≤ 0 := by
      rw [hc.2 hn]
      omega
    exact ⟨by exact_mod_cast h1.1, by exact_mod_cast h1.2⟩

theorem ToMillis_truncates_toward_zero_witness :
    isInt64 1999999 ∧ isInt64 (-1999999) ∧
      Requestor.ToMillis (some 1999999) * 1000000 ≤ ((1999999 : Int) : ℚ) ∧
      (((-1999999 : Int) : ℚ) ≤ Requestor.ToMillis (some (-1999999)) * 1000000 ∧
        Requestor.ToMillis (some (-1999999)) * 1000000 ≤ 0) :=
  ⟨by decide, by decide, (ToMillis_truncates_toward_zero 1999999 (by decide)).1 (by decide),
    (ToMillis_truncates_toward_zero (-1999999) (by decide)).2 (by decide)⟩

/-! ## Lemmas on the request loop -/

theorem wrapInt64_succ (x : Int) (k : Int) :
    wrapInt64 (wrapInt64 (x + 1) + k) = wrapInt64 (x + (k + 1)) := by
  unfold wrapInt64
  omega

theorem wrapInt64_of_isInt64 (x : Int) (h : isInt64 x) : wrapInt64 x = x := by
  unfold isInt64 at h
  unfold wrapInt64
  omega

theorem loopBody_count (cfg : Requestor.LoopConfig) (count : Int) (inp : Requestor.IterInput) :
    (Requestor.loopBody cfg count inp).count = wrapInt64 (count + 1) := by
  unfold Requestor.loopBody Requestor.AddInt64
  split <;> rfl

theorem loopBody_returned (cfg : Requestor.LoopConfig) (count : Int) (inp : Requestor.IterInput) :
    (Requestor.loopBody cfg count inp).returned = true ↔
      inp.err = some Requestor.RequestError.ErrConnectionClosed := by
  unfold Requestor.loopBody
  split <;> simp_all

theorem loopBody_closed (cfg : Requestor.LoopConfig) (count : Int) (inp : Requestor.IterInput)
    (h : inp.err = some Requestor.RequestError.ErrConnectionClosed) :
    Requestor.loopBody cfg count inp =
      { count := wrapInt64 (count + 1),
        events := [Requestor.Event.Request cfg.subject
          (Requestor.payload (wrapInt64 (count + 1))) (10 * Second)],
        returned := true } := by
  unfold Requestor.loopBody Requestor.AddInt64
  rw [if_pos h]

theorem loopBody_payload (cfg : Requestor.LoopConfig) (count : Int) (inp : Requestor.IterInput) :
    Requestor.requestPayload? (Requestor.loopBody cfg count inp).events =
      some (Requestor.payload (wrapInt64 (count + 1))) := by
  unfold Requestor.loopBody Requestor.AddInt64
  split <;> simp [Requestor.requestPayload?, List.findSome?]

theorem requestLoop_cons (cfg : Requestor.LoopConfig) (inp : Requestor.IterInput)
    (rest : List Requestor.IterInput) (count : Int) :
    Requestor.requestLoop cfg (inp :: rest) count =
      if inp.err = some Requestor.RequestError.ErrConnectionClosed then
        { count := wrapInt64 (count + 1),
          iterations := [(Requestor.loopBody cfg count inp).events], returned := true }
      else
        { count := (Requestor.requestLoop cfg rest (wrapInt64 (count + 1))).count,
          iterations := (Requestor.loopBody cfg count inp).events ::
            (Requestor.requestLoop cfg rest (wrapInt64 (count + 1))).iterations,
          returned := (Requestor.requestLoop cfg rest (wrapInt64 (count + 1))).returned } := by
  have hc := loopBody_count cfg count inp
  have hr := loopBody_returned cfg count inp
  by_cases h : inp.err = some Requestor.RequestError.ErrConnectionClosed
  · rw [if_pos h]
    simp only [Requestor.requestLoop, hr.2 h, if_true, hc]
  · rw [if_neg h]
    have hf : (Requestor.loopBody cfg count inp).returned = false := by
      cases hb : (Requestor.loopBody cfg count inp).returned
      · rfl
      · exact absurd (hr.1 hb) h
    simp [Requestor.requestLoop, hf, hc]

theorem requestLoop_payloads (cfg : Requestor.LoopConfig) (inputs : List Requestor.IterInput) :
    ∀ count : Int, Requestor.requestPayloads (Requestor.requestLoop cfg inputs count) =
      (List.range (Requestor.requestLoop cfg inputs count).iterations.length).map
        (fun i : Nat => Requestor.payload (wrapInt64 (count + ((i : Int) + 1)))) := by
  induction inputs with
  | nil =>
    intro count
    simp [Requestor.requestLoop, Requestor.requestPayloads]
  | cons inp rest ih =>
    intro count
    rw [requestLoop_cons]
    have hp := loopBody_payload cfg count inp
    by_cases h : inp.err = some Requestor.RequestError.ErrConnectionClosed
    · rw [if_pos h]
      simp [Requestor.requestPayloads, hp, List.range_succ_eq_map]
    · rw [if_neg h]
      have ih2 := ih (wrapInt64 (count + 1))
      unfold Requestor.requestPayloads at ih2 ⊢
      simp only [List.filterMap_cons, hp, List.length_cons, List.range_succ_eq_map, List.map_cons,
        List.map_map, ih2]
      simp only [List.cons.injEq, Nat.cast_zero, zero_add, true_and]
      apply List.map_congr_left
      intro i _
      simp only [Function.comp, Nat.succ_eq_add_one]
      rw [wrapInt64_succ]
      push_cast
      rfl

theorem requestLoop_running (cfg : Requestor.LoopConfig) (inputs : List Requestor.IterInput) :
    ∀ count : Int, (∀ y ∈ inputs, y.err ≠ some Requestor.RequestError.ErrConnectionClosed) →
      (Requestor.requestLoop cfg inputs count).returned = false ∧
        (Requestor.requestLoop cfg inputs count).iterations.length = inputs.length := by
  induction inputs with
  | nil =>
    intro count _
    simp [Requestor.requestLoop]
  | cons inp rest ih =>
    intro count h
    rw [requestLoop_cons, if_neg (h inp (List.mem_cons_self _ _))]
    have ih2 := ih (wrapInt64 (count + 1)) (fun y hy => h y (List.mem_cons_of_mem _ hy))
    simp [ih2.1, ih2.2]

theorem requestLoop_first_closed (cfg : Requestor.LoopConfig) (pre : List Requestor.IterInput)
    (x : Requestor.IterInput) (post : List Requestor.IterInput) :
    ∀ count : Int, (∀ y ∈ pre, y.err ≠ some Requestor.RequestError.ErrConnectionClosed) →
      x.err = some Requestor.RequestError.ErrConnectionClosed →
      (Requestor.requestLoop cfg (pre ++ x :: post) count).returned = true ∧
        (Requestor.requestLoop cfg (pre ++ x :: post) count).iterations.length = pre.length + 1 ∧
        (Requestor.requestLoop cfg (pre ++ x :: post) count).iterations.getLast? =
          some [Requestor.Event.Request cfg.subject
            (Requestor.payload (wrapInt64 (count + ((pre.length : Int) + 1)))) (10 * Second)] := by
  induction pre with
  | nil =>
    intro count _ hx
    rw [List.nil_append, requestLoop_cons, if_pos hx, loopBody_closed cfg count x hx]
    simp
  | cons inp rest ih =>
    intro count h hx
    rw [List.cons_append, requestLoop_cons, if_neg (h inp (List.mem_cons_self _ _))]
    have ih2 := ih (wrapInt64 (count + 1)) (fun y hy => h y (List.mem_cons_of_mem _ hy)) hx
    obtain ⟨h1, h2, h3⟩ := ih2
    refine ⟨h1, by simp [h2], ?_⟩
    simp only [List.getLast?_cons, h3, Option.getD_some, List.length_cons]
    rw [wrapInt64_succ]
    push_cast
    rfl

theorem requestLoop_returned_iff (cfg : Requestor.LoopConfig) (inputs : List Requestor.IterInput) :
    ∀ count : Int, (Requestor.requestLoop cfg inputs count).returned = true ↔
      ∃ x ∈ inputs, x.err = some Requestor.RequestError.ErrConnectionClosed := by
  induction inputs with
  | nil =>
    intro count
    simp [Requestor.requestLoop]
  | cons inp rest ih =>
    intro count
    rw [requestLoop_cons]
    by_cases h : inp.err = some Requestor.RequestError.ErrConnectionClosed
    · rw [if_pos h]
      simp [h]
    · rw [if_neg h]
      simp [ih (wrapInt64 (count + 1)), h]

theorem digitValue_digitChar (k : Nat) (h : k < 10) : (Nat.digitChar k).toNat - 48 = k := by
  interval_cases k <;> decide

theorem foldl_toDigitsCore (f : Nat) : ∀ (n : Nat) (ds : List Char), n < f →
    (Nat.toDigitsCore 10 f n ds).foldl digitValue 0 = ds.foldl digitValue n := by
  induction f with
  | zero => intro n ds h; omega
  | succ f ih =>
    intro n ds h
    unfold Nat.toDigitsCore
    have hd := digitValue_digitChar (n % 10) (Nat.mod_lt _ (by decide))
    by_cases h0 : n / 10 = 0
    · simp only [h0, if_true, List.foldl_cons, digitValue, hd]
      congr 1
      omega
    · simp only [h0, if_false]
      rw [ih (n / 10) _ (by omega)]
      simp only [List.foldl_cons, digitValue, hd]
      congr 1
      omega

theorem Nat_repr_injective (a b : Nat) (h : Nat.repr a = Nat.repr b) : a = b := by
  unfold Nat.repr at h
  have h2 : Nat.toDigits 10 a = Nat.toDigits 10 b := by
    have := congrArg String.data h
    simpa using this
  have ha := foldl_toDigitsCore (a + 1) a [] (by omega)
  have hb := foldl_toDigitsCore (b + 1) b [] (by omega)
  unfold Nat.toDigits at h2
  rw [h2, hb] at ha
  simpa using ha.symm

theorem payload_natCast_injective :
    Function.Injective (fun k : Nat => Requestor.payload ((k : Int) + 1)) := by
  intro a b h
  have h1 : "request-" ++ Nat.repr (a + 1) = "request-" ++ Nat.repr (b + 1) := h
  have h2 := congrArg String.data h1
  rw [String.data_append, String.data_append] at h2
  have h3 : Nat.repr (a + 1) = Nat.repr (b + 1) := String.ext (List.append_cancel_left h2)
  have := Nat_repr_injective _ _ h3
  omega

theorem requestor_payload_at (cfg : Requestor.LoopConfig) (x : Requestor.IterInput)
    (hx : x.err ≠ some Requestor.RequestError.ErrConnectionClosed) (m : Nat) :
    (Requestor.requestPayloads (Requestor.requestor cfg (List.replicate (m + 1) x)))[m]? =
      some (Requestor.payload (wrapInt64 ((m : Int) + 1))) := by
  have hrun := (requestLoop_running cfg (List.replicate (m + 1) x) 0
    (fun y hy => by rw [List.eq_of_mem_replicate hy]; exact hx)).2
  unfold Requestor.requestor
  rw [requestLoop_payloads, hrun, List.length_replicate, List.getElem?_map,
    List.getElem?_range (Nat.lt_succ_self m)]
  simp

/-! ## The request loop -/

/-- C2, as stated, fails once the `int64` counter wraps: when 9223372036854775808 requests
are issued (all successful here), the last of them carries the payload
`request--9223372036854775808`, not `request-9223372036854775808`. -/
theorem requestor_payload_wraps_at_int64 :
    (Requestor.requestPayloads (Requestor.requestor ⟨"demo.requests", 0, false⟩
        (List.replicate 9223372036854775808 ⟨none, 1500000⟩)))[9223372036854775807]? =
        some "request--9223372036854775808" ∧
      "request--9223372036854775808" ≠ Requestor.payload 9223372036854775808 := by
  constructor
  · have h := requestor_payload_at ⟨"demo.requests", 0, false⟩ ⟨none, 1500000⟩ (by decide)
      9223372036854775807
    have hp : Requestor.payload (wrapInt64 (((9223372036854775807 : Nat) : Int) + 1)) =
        "request--9223372036854775808" := by decide
    rw [hp] at h
    exact h
  · decide

/-- C2, amended: in the requestor loop started with the counter at 0, for every `N` up to
9223372036854775807 (the largest `int64`), the payloads of the first `N` requests issued are
exactly `request-1`, ..., `request-N` in that order, without duplicate, whatever the
outcomes of the requests. -/
theorem requestor_payload_sequence (cfg : Requestor.LoopConfig)
    (inputs : List Requestor.IterInput) (N : Nat)
    (hN : N ≤ (Requestor.requestPayloads (Requestor.requestor cfg inputs)).length)
    (hb : N ≤ 9223372036854775807) :
    (Requestor.requestPayloads (Requestor.requestor cfg inputs)).take N =
        (List.range N).map (fun k : Nat => Requestor.payload ((k : Int) + 1)) ∧
      ((Requestor.requestPayloads (Requestor.requestor cfg inputs)).take N).Nodup := by
  have key : (Requestor.requestPayloads (Requestor.requestor cfg inputs)).take N =
      (List.range N).map (fun k : Nat => Requestor.payload ((k : Int) + 1)) := by
    unfold Requestor.requestor at hN ⊢
    rw [requestLoop_payloads] at hN ⊢
    rw [List.length_map, List.length_range] at hN
    rw [← List.map_take, List.take_range, Nat.min_eq_left hN]
    apply List.map_congr_left
    intro k hk
    have hk2 : k < N := List.mem_range.1 hk
    rw [wrapInt64_of_isInt64]
    · simp
    · unfold isInt64
      omega
  refine ⟨key, ?_⟩
  rw [key]
  exact (List.nodup_range N).map payload_natCast_injective

theorem requestor_payload_sequence_witness :
    (Requestor.requestPayloads (Requestor.requestor ⟨"demo.requests", 0, true⟩
        [⟨none, 1500000⟩, ⟨some (Requestor.RequestError.other "nats: timeout"), 10000000000⟩,
          ⟨none, 900000⟩])).take 3 =
        (List.range 3).map (fun k : Nat => Requestor.payload ((k : Int) + 1)) ∧
      ((Requestor.requestPayloads (Requestor.requestor ⟨"demo.requests", 0, true⟩
        [⟨none, 1500000⟩, ⟨some (Requestor.RequestError.other "nats: timeout"), 10000000000⟩,
          ⟨none, 900000⟩])).take 3).Nodup :=
  requestor_payload_sequence ⟨"demo.requests", 0, true⟩
    [⟨none, 1500000⟩, ⟨some (Requestor.RequestError.other "nats: timeout"), 10000000000⟩,
      ⟨none, 900000⟩] 3 (by decide) (by decide)

/-- C3, as stated, fails: an iteration whose request fails with an error other than
connection-closed (here a timeout, with `dly` of 5 ns and `debug` off) still records the
elapsed time in the summary and the histogram, increments the counter metric and sleeps;
with `debug` off nothing is logged. -/
theorem loopBody_error_records_metrics :
    Requestor.loopBody ⟨"demo.requests", 5, false⟩ 0
        ⟨some (Requestor.RequestError.other "nats: timeout"), 10000000000⟩ =
      { count := 1,
        events := [Requestor.Event.Request "demo.requests" "request-1" 10000000000,
          Requestor.Event.SummaryObserve "rpc-demo-req" 10000,
          Requestor.Event.HistogramObserve 10000,
          Requestor.Event.CounterInc "rpc-demo-req",
          Requestor.Event.Sleep 5],
        returned := false } := by
  decide

/-- C3, amended: an iteration of the requestor loop records into the metrics exactly when
its request did not fail with connection-closed. For every iteration whose request fails
with another error, the error is handed to `Debugf` (a log line is written only when `debug`
is set), after which the iteration goes on as after a success: one observation of the
elapsed milliseconds in the summary, one in the histogram, one increment of the counter
metric, and the delay sleep when `dly` is non-zero; the loop then continues. -/
theorem loopBody_records_unless_closed (cfg : Requestor.LoopConfig) (count : Int)
    (inp : Requestor.IterInput) :
    ((Requestor.loopBody cfg count inp).events.any Requestor.Event.isMetric = true ↔
        inp.err ≠ some Requestor.RequestError.ErrConnectionClosed) ∧
      (∀ text : String, inp.err = some (Requestor.RequestError.other text) →
        Requestor.loopBody cfg count inp =
          { count := Requestor.AddInt64 count 1,
            events :=
              [Requestor.Event.Request cfg.subject
                (Requestor.payload (Requestor.AddInt64 count 1)) 10000000000] ++
              Requestor.Debugf cfg.debug ("Request error: " ++ text) ++
              [Requestor.Event.SummaryObserve "rpc-demo-req"
                  (Requestor.ToMillis (some inp.elapsed)),
                Requestor.Event.HistogramObserve (Requestor.ToMillis (some inp.elapsed)),
                Requestor.Event.CounterInc "rpc-demo-req"] ++
              (if cfg.dly = 0 then [] else [Requestor.Event.Sleep cfg.dly]),
            returned := false } ∧
        (Requestor.loopBody cfg count inp).events.filter (fun ev => !ev.isLog) =
          (Requestor.loopBody cfg count { inp with err := none }).events) := by
  constructor
  · unfold Requestor.loopBody
    by_cases h : inp.err = some Requestor.RequestError.ErrConnectionClosed
    · simp [h, Requestor.Event.isMetric]
    · simp [h, Requestor.Event.isMetric]
  · intro text h
    constructor
    · unfold Requestor.loopBody
      simp [h, Requestor.RequestError.Error, Second]
    · unfold Requestor.loopBody Requestor.Debugf
      by_cases hd : cfg.debug = true <;> by_cases hz : cfg.dly = 0 <;>
        simp [h, hd, hz, Requestor.Event.isLog, List.filter]

theorem loopBody_records_unless_closed_witness :
    Requestor.loopBody ⟨"demo.requests", 0, true⟩ 6
        ⟨some (Requestor.RequestError.other "nats: timeout"), 10000000000⟩ =
      { count := Requestor.AddInt64 6 1,
        events :=
          [Requestor.Event.Request "demo.requests"
            (Requestor.payload (Requestor.AddInt64 6 1)) 10000000000] ++
          Requestor.Debugf true ("Request error: " ++ "nats: timeout") ++
          [Requestor.Event.SummaryObserve "rpc-demo-req"
              (Requestor.ToMillis (some 10000000000)),
            Requestor.Event.HistogramObserve (Requestor.ToMillis (some 10000000000)),
            Requestor.Event.CounterInc "rpc-demo-req"] ++
          (if (0 : Int) = 0 then [] else [Requestor.Event.Sleep 0]),
        returned := false } :=
  ((loopBody_records_unless_closed ⟨"demo.requests", 0, true⟩ 6
    ⟨some (Requestor.RequestError.other "nats: timeout"), 10000000000⟩).2
      "nats: timeout" rfl).1

/-- C4: the requestor loop returns if and only if a request fails with connection-closed.
Whatever the outcomes, it returns in the first iteration whose request returns
connection-closed and in no earlier one (after a success or another error it goes on), and
that last iteration consists of the request alone: no log line, no metric, no sleep. -/
theorem requestLoop_returns_iff_closed (cfg : Requestor.LoopConfig)
    (inputs : List Requestor.IterInput) (count : Int) :
    ((Requestor.requestLoop cfg inputs count).returned = true ↔
        ∃ x ∈ inputs, x.err = some Requestor.RequestError.ErrConnectionClosed) ∧
      ((∀ y ∈ inputs, y.err ≠ some Requestor.RequestError.ErrConnectionClosed) →
        (Requestor.requestLoop cfg inputs count).returned = false ∧
          (Requestor.requestLoop cfg inputs count).iterations.length = inputs.length) ∧
      (∀ (pre : List Requestor.IterInput) (x : Requestor.IterInput)
        (post : List Requestor.IterInput), inputs = pre ++ x :: post →
        (∀ y ∈ pre, y.err ≠ some Requestor.RequestError.ErrConnectionClosed) →
        x.err = some Requestor.RequestError.ErrConnectionClosed →
        (Requestor.requestLoop cfg pre count).returned = false ∧
          (Requestor.requestLoop cfg pre count).iterations.length = pre.length ∧
          (Requestor.requestLoop cfg inputs count).returned = true ∧
          (Requestor.requestLoop cfg inputs count).iterations.length = pre.length + 1 ∧
          (Requestor.requestLoop cfg inputs count).iterations.getLast? =
            some [Requestor.Event.Request cfg.subject
              (Requestor.payload (wrapInt64 (count + ((pre.length : Int) + 1))))
              10000000000]) := by
  refine ⟨requestLoop_returned_iff cfg inputs count, requestLoop_running cfg inputs count, ?_⟩
  intro pre x post hin hpre hx
  subst hin
  have h1 := requestLoop_running cfg pre count hpre
  have h2 := requestLoop_first_closed cfg pre x post count hpre hx
  exact ⟨h1.1, h1.2, h2.1, h2.2.1, h2.2.2⟩

theorem requestLoop_returns_iff_closed_witness :
    ((Requestor.requestLoop ⟨"demo.requests", 5, true⟩
        [⟨none, 1500000⟩, ⟨some (Requestor.RequestError.other "nats: timeout"), 10000000000⟩]
        0).returned = false ∧
      (Requestor.requestLoop ⟨"demo.requests", 5, true⟩
        [⟨none, 1500000⟩, ⟨some (Requestor.RequestError.other "nats: timeout"), 10000000000⟩]
        0).iterations.length = 2) ∧
      (Requestor.requestLoop ⟨"demo.requests", 5, true⟩
        [⟨none, 1500000⟩, ⟨some (Requestor.RequestError.other "nats: timeout"), 10000000000⟩,
          ⟨some Requestor.RequestError.ErrConnectionClosed, 700⟩, ⟨none, 1⟩] 0).returned = true ∧
      (Requestor.requestLoop ⟨"demo.requests", 5, true⟩
        [⟨none, 1500000⟩, ⟨some (Requestor.RequestError.other "nats: timeout"), 10000000000⟩,
          ⟨some Requestor.RequestError.ErrConnectionClosed, 700⟩, ⟨none, 1⟩]
        0).iterations.getLast? =
        some [Requestor.Event.Request "demo.requests"
          (Requestor.payload (wrapInt64 (0 + (((2 : Nat) : Int) + 1)))) 10000000000] :=
  ⟨(requestLoop_returns_iff_closed ⟨"demo.requests", 5, true⟩
      [⟨none, 1500000⟩, ⟨some (Requestor.RequestError.other "nats: timeout"), 10000000000⟩]
      0).2.1 (by decide),
    ((requestLoop_returns_iff_closed ⟨"demo.requests", 5, true⟩
      [⟨none, 1500000⟩, ⟨some (Requestor.RequestError.other "nats: timeout"), 10000000000⟩,
        ⟨some Requestor.RequestError.ErrConnectionClosed, 700⟩, ⟨none, 1⟩] 0).2.2
      [⟨none, 1500000⟩, ⟨some (Requestor.RequestError.other "nats: timeout"), 10000000000⟩]
      ⟨some Requestor.RequestError.ErrConnectionClosed, 700⟩ [⟨none, 1⟩] rfl (by decide)
      rfl).2.2.1,
    ((requestLoop_returns_iff_closed ⟨"demo.requests", 5, true⟩
      [⟨none, 1500000⟩, ⟨some (Requestor.RequestError.other "nats: timeout"), 10000000000⟩,
        ⟨some Requestor.RequestError.ErrConnectionClosed, 700⟩, ⟨none, 1⟩] 0).2.2
      [⟨none, 1500000⟩, ⟨some (Requestor.RequestError.other "nats: timeout"), 10000000000⟩]
      ⟨some Requestor.RequestError.ErrConnectionClosed, 700⟩ [⟨none, 1⟩] rfl (by decide)
      rfl).2.2.2.2⟩

/-! ## The goroutine of `startHTTP` -/

/-- C5, as stated, fails for a message without reply address: the one call
`nc.Publish("", nil)` is refused as an invalid subject, its error is discarded, and no
reply is published, although the connection accepts publishes. -/
theorem handler_empty_reply_publishes_nothing :
    Replier.handler false 0 none ⟨"demo.requests", "", "request-1"⟩ =
        [Replier.Event.Publish "" ""] ∧
      (Replier.handler false 0 none ⟨"demo.requests", "", "request-1"⟩).filter
        Replier.Event.isSent = [] ∧
      Replier.ncPublish none "" "" = (some "nats: invalid subject", [Replier.Event.Publish "" ""]) := by
  decide

/-- C5, amended: for every received message and every configured delay `dly`, the handler
calls `nc.Publish` exactly once, with the reply address of the message and an empty
payload. Exactly one reply is published, to that address and empty, when the reply address
is non-empty and the connection accepts the publish; none is published when the reply
address is empty or the connection refuses. When `dly` is non-zero exactly one sleep, of
`dly`, is performed, before the call; when `dly` is zero there is no sleep. -/
theorem handler_publishes_one_reply (debug : Bool) (dly : Int) (conn : Option String)
    (msg : Replier.Msg) :
    (Replier.handler debug dly conn msg).filter Replier.Event.isPublish =
        [Replier.Event.Publish msg.Reply ""] ∧
      (msg.Reply ≠ "" → conn = none →
        (Replier.handler debug dly conn msg).filter Replier.Event.isSent =
          [Replier.Event.Sent msg.Reply ""]) ∧
      (msg.Reply = "" ∨ conn ≠ none →
        (Replier.handler debug dly conn msg).filter Replier.Event.isSent = []) ∧
      (dly ≠ 0 → ∃ rest : List Replier.Event,
        Replier.handler debug dly conn msg = Replier.Event.Sleep dly :: rest ∧
          rest.filter Replier.Event.isSleep = []) ∧
      (dly = 0 → (Replier.handler debug dly conn msg).filter Replier.Event.isSleep = []) := by
  unfold Replier.handler Replier.ncPublish Replier.Debugf
  refine ⟨?_, ?_, ?_, ?_, ?_⟩
  · by_cases hd : debug = true <;> by_cases hz : dly = 0 <;> by_cases hr : msg.Reply = "" <;>
      cases conn <;> simp [hd, hz, hr, Replier.Event.isPublish, List.filter]
  · intro hr hc
    subst hc
    by_cases hd : debug = true <;> by_cases hz : dly = 0 <;>
      simp [hd, hz, hr, Replier.Event.isSent, List.filter]
  · intro hrc
    by_cases hd : debug = true <;> by_cases hz : dly = 0 <;> by_cases hr : msg.Reply = "" <;>
      cases conn <;> simp_all [Replier.Event.isSent, List.filter]
  · intro hz
    by_cases hd : debug = true <;> by_cases hr : msg.Reply = "" <;>
      cases conn <;> simp [hd, hz, hr, Replier.Event.isSleep, List.filter]
  · intro hz
    by_cases hd : debug = true <;> by_cases hr : msg.Reply = "" <;>
      cases conn <;> simp [hd, hz, hr, Replier.Event.isSleep, List.filter]

theorem handler_publishes_one_reply_witness :
    (Replier.handler true 10000000 none ⟨"demo.requests", "_INBOX.a1", "request-1"⟩).filter
        Replier.Event.isSent = [Replier.Event.Sent "_INBOX.a1" ""] ∧
      (Replier.handler true 10000000 (some "nats: connection closed")
        ⟨"demo.requests", "_INBOX.a1", "request-1"⟩).filter Replier.Event.isSent = [] ∧
      (∃ rest : List Replier.Event,
        Replier.handler true 10000000 none ⟨"demo.requests", "_INBOX.a1", "request-1"⟩ =
          Replier.Event.Sleep 10000000 :: rest ∧ rest.filter Replier.Event.isSleep = []) ∧
      (Replier.handler true 0 none ⟨"demo.requests", "_INBOX.a1", "request-1"⟩).filter
        Replier.Event.isSleep = [] :=
  ⟨(handler_publishes_one_reply true 10000000 none
      ⟨"demo.requests", "_INBOX.a1", "request-1"⟩).2.1 (by decide) rfl,
    (handler_publishes_one_reply true 10000000 (some "nats: connection closed")
      ⟨"demo.requests", "_INBOX.a1", "request-1"⟩).2.2.1 (Or.inr (by decide)),
    (handler_publishes_one_reply true 10000000 none
      ⟨"demo.requests", "_INBOX.a1", "request-1"⟩).2.2.2.1 (by decide),
    (handler_publishes_one_reply true 0 none
      ⟨"demo.requests", "_INBOX.a1", "request-1"⟩).2.2.2.2 rfl⟩

/-! ## `GetClientOptions` -/

theorem GetClientOptions_eq (conf : Utils.Config) (hostname : Except String String) :
    Utils.GetClientOptions conf hostname =
      [Utils.NatsOption.Name ("NATS_Requestor - " ++
        (match hostname with
          | .ok name => name
          | .error _ => "127.0.0.1"))] ++
      (if conf.Creds = "" then [] else [Utils.NatsOption.UserCredentials conf.Creds]) ++
      [Utils.NatsOption.DisconnectHandler, Utils.NatsOption.ReconnectHandler,
        Utils.NatsOption.ClosedHandler, Utils.NatsOption.ErrorHandler,
        Utils.NatsOption.MaxReconnects 10240] ++
      (if conf.Tlsca = "" then [] else [Utils.NatsOption.RootCAs [conf.Tlsca]]) ++
      (if conf.Tlscert = "" then []
        else [Utils.NatsOption.ClientCert conf.Tlscert conf.Tlskey]) := by
  unfold Utils.GetClientOptions
  cases hostname <;> by_cases h1 : conf.Creds = "" <;> by_cases h2 : conf.Tlsca = "" <;>
    by_cases h3 : conf.Tlscert = "" <;> simp [Id.run, h1, h2, h3]

/-- C6: for every `Config`, the list returned by `GetClientOptions` holds no
credentials option when `Creds` is empty and exactly one, built from `Creds`, when `Creds`
is non-empty, whatever `Tlscert`, `Tlskey` and `Tlsca` are. -/
theorem GetClientOptions_credentials (conf : Utils.Config) (hostname : Except String String) :
    (conf.Creds = "" →
        (Utils.GetClientOptions conf hostname).filter Utils.NatsOption.isUserCredentials = []) ∧
      (conf.Creds ≠ "" →
        (Utils.GetClientOptions conf hostname).filter Utils.NatsOption.isUserCredentials =
          [Utils.NatsOption.UserCredentials conf.Creds]) := by
  rw [GetClientOptions_eq]
  by_cases h1 : conf.Creds = "" <;> by_cases h2 : conf.Tlsca = "" <;>
    by_cases h3 : conf.Tlscert = "" <;>
    simp [h1, h2, h3, Utils.NatsOption.isUserCredentials, List.filter]

theorem GetClientOptions_credentials_witness :
    (Utils.GetClientOptions ⟨"", "cert.pem", "key.pem", "ca.pem"⟩ (.ok "box")).filter
        Utils.NatsOption.isUserCredentials = [] ∧
      (Utils.GetClientOptions ⟨"user.creds", "cert.pem", "key.pem", ""⟩ (.ok "box")).filter
        Utils.NatsOption.isUserCredentials = [Utils.NatsOption.UserCredentials "user.creds"] :=
  ⟨(GetClientOptions_credentials ⟨"", "cert.pem", "key.pem", "ca.pem"⟩ (.ok "box")).1 rfl,
    (GetClientOptions_credentials ⟨"user.creds", "cert.pem", "key.pem", ""⟩ (.ok "box")).2
      (by decide)⟩

/-- C7: for every `Config` and every outcome of the hostname lookup, `GetClientOptions`
returns, in this order: the name option `NATS_Requestor - <hostname>` (hostname `127.0.0.1`
when the lookup fails); the credentials option iff `Creds` is non-empty; the disconnect,
reconnect, closed and error handler options; the max-reconnects option with bound 10240; the
root-CA option for `Tlsca` iff `Tlsca` is non-empty; the client-certificate option for
`Tlscert` and `Tlskey` iff `Tlscert` is non-empty. Its length is 6 plus the number of
non-empty fields among `Creds`, `Tlsca` and `Tlscert`; `Tlskey` alone adds nothing. -/
theorem GetClientOptions_ordered_list (conf : Utils.Config) (hostname : Except String String) :
    Utils.GetClientOptions conf hostname =
        [Utils.NatsOption.Name ("NATS_Requestor - " ++
          (match hostname with
            | .ok name => name
            | .error _ => "127.0.0.1"))] ++
        (if conf.Creds = "" then [] else [Utils.NatsOption.UserCredentials conf.Creds]) ++
        [Utils.NatsOption.DisconnectHandler, Utils.NatsOption.ReconnectHandler,
          Utils.NatsOption.ClosedHandler, Utils.NatsOption.ErrorHandler,
          Utils.NatsOption.MaxReconnects 10240] ++
        (if conf.Tlsca = "" then [] else [Utils.NatsOption.RootCAs [conf.Tlsca]]) ++
        (if conf.Tlscert = "" then []
          else [Utils.NatsOption.ClientCert conf.Tlscert conf.Tlskey]) ∧
      (Utils.GetClientOptions conf hostname).length =
        6 + (if conf.Creds = "" then 0 else 1) + (if conf.Tlsca = "" then 0 else 1) +
          (if conf.Tlscert = "" then 0 else 1) ∧
      (conf.Tlscert = "" →
        Utils.GetClientOptions conf hostname =
          Utils.GetClientOptions { conf with Tlskey := "" } hostname) := by
  refine ⟨GetClientOptions_eq conf hostname, ?_, ?_⟩
  · rw [GetClientOptions_eq]
    by_cases h1 : conf.Creds = "" <;> by_cases h2 : conf.Tlsca = "" <;>
      by_cases h3 : conf.Tlscert = "" <;> simp [h1, h2, h3]
  · intro h3
    rw [GetClientOptions_eq, GetClientOptions_eq]
    simp [h3]

theorem GetClientOptions_ordered_list_witness :
    Utils.GetClientOptions ⟨"user.creds", "", "key.pem", "ca.pem"⟩ (.error "no hostname") =
      Utils.GetClientOptions { (⟨"user.creds", "", "key.pem", "ca.pem"⟩ : Utils.Config) with
        Tlskey := "" } (.error "no hostname") :=
  (GetClientOptions_ordered_list ⟨"user.creds", "", "key.pem", "ca.pem"⟩
    (.error "no hostname")).2.2 rfl

/-- C10: the code at the failing input. Called with a nil subscription the error callback
evaluates `s.Subject` and ends in a nil-pointer panic, without writing a line; called with
a subscription it writes a line that does not contain the subject. -/
theorem errorHandler_nil_subscription_panics (err : String) (sub : Utils.Subscription) :
    Utils.errorHandler none err = .error Utils.Panic.nilPointerDereference ∧
      Utils.errorHandler (some sub) err = .ok ["Error: err=" ++ err] := by
  constructor <;> rfl

end LatencyClients
